import Mathlib

/-!
Shallow embedding of `src/src/main.rs` of the windns-sd repository.

The supervisor function `run_service` is embedded as a pure function from an
environment (the results of all external collaborators: the host service
control subsystem, the filesystem/config parser, the OS port allocator, the
mpsc channel receive results) to the trace of actions the supervisor performs
on its own control thread, together with the way the function ends.

External collaborators (the `windows-service` host calls, the `config` crate
parse, `TcpListener` binding, `astro-dnssd` registration) are oracles supplied
in the environment; every control-flow decision of `run_service` itself is
translated from the Rust source.
-/

namespace WinDnsSd

/-- The host control notifications matched by the code: `ServiceControl` in
`windows-service`.  The code matches `Interrogate`, `Stop` and a catch-all
`_`; the remaining variants are modelled by a few named ones plus an
`other` constructor carrying an arbitrary code. -/
inductive ServiceControl where
  | interrogate
  | stop
  | continueEvt
  | pause
  | shutdown
  | other (code : Nat)
deriving DecidableEq

/-- `ServiceControlHandlerResult`: the acknowledgment the callback returns to
the host.  The code uses only `NoError` and `NotImplemented`. -/
inductive HandlerResult where
  | noError
  | notImplemented
deriving DecidableEq

/-- Embeds the `event_handler` closure in `run_service` (src/src/main.rs,
lines 62-74).  Result: the acknowledgment returned to the host and the list
of events sent into the mpsc channel by this invocation.
`Interrogate => NoError`, nothing sent; `Stop => send(event); NoError`;
anything else `=> NotImplemented`, nothing sent. -/
def event_handler : ServiceControl → HandlerResult × List ServiceControl
  | .interrogate => (.noError, [])
  | .stop => (.noError, [.stop])
  | _ => (.notImplemented, [])

/-- The three `ServiceState` values the code ever reports:
`Running`, `StopPending`, `Stopped`. -/
inductive ServiceState where
  | running
  | stopPending
  | stopped
deriving DecidableEq

/-- `ServiceConfig` struct: one entry of the config table.  `port : u16` is
modelled as `Nat` (the parser enforces `port < 65536`; relevant bounds are
carried as hypotheses where they matter).  `text` mirrors
`Option<HashMap<String, String>>` as an optional association list. -/
structure ServiceConfig where
  name : String
  service_type : String
  port : Nat
  text : Option (List (String × String))
deriving DecidableEq

/-- `Settings` struct: the parsed config.  The `HashMap<String, ServiceConfig>`
is modelled as an association list whose order is the (arbitrary) iteration
order of the map. -/
structure Settings where
  services : List (String × ServiceConfig)
deriving DecidableEq

/-- Embeds `available_port` (src/src/main.rs, lines 43-51): bind an ephemeral
listener and read back its port.  The OS outcome of
`TcpListener::bind("localhost:0")` followed by `local_addr()` is the oracle
`os`; the function itself just passes the success value through and
propagates the error. -/
def available_port (os : Option Nat) : Option Nat :=
  match os with
  | some port => some port
  | none => none

/-- One observable action of the supervisor control thread. -/
inductive TraceEvent where
  | reportStatus (s : ServiceState)
  | controlRegisterCall (serviceType name : String) (port : Nat)
      (txt : List (String × String))
  | spawnWorker (key : String)
  | logError (msg : String)
  | pollEnter
deriving DecidableEq

/-- The message printed by the `Err(e)` arm of the channel poll. -/
def recvErrorLog : String := "Error receiving service control event"

/-- How a call to `run_service` ends: `Ok(())`, an early `Err` return from a
`?`, a panic from an `unwrap`, or (for modelling a finite prefix of channel
results) the poll loop still running when the supplied results run out. -/
inductive Outcome where
  | ok
  | err
  | panicked
  | stillRunning
deriving DecidableEq

/-- Embeds the per-service `for` loop of `run_service` (src/src/main.rs,
lines 93-115).  `alloc j` is the outcome of the j-th call to
`available_port` during this run.  For each entry: if `port == 0` the code
calls `available_port().unwrap()` (a `None` outcome panics the whole
function), otherwise it uses the configured port; it then calls
`DNSServiceBuilder::...register()` on the current (control) thread and
finally spawns the worker thread which receives the already-computed result.
Returns the trace of this loop and whether it panicked. -/
def spawnServices (alloc : Nat → Option Nat) :
    Nat → List (String × ServiceConfig) → List TraceEvent × Bool
  | _, [] => ([], false)
  | j, (key, sc) :: rest =>
    if sc.port = 0 then
      match available_port (alloc j) with
      | none => ([], true)
      | some port =>
        let r := spawnServices alloc (j + 1) rest
        (.controlRegisterCall sc.service_type sc.name port (sc.text.getD []) ::
           .spawnWorker key :: r.1, r.2)
    else
      let r := spawnServices alloc j rest
      (.controlRegisterCall sc.service_type sc.name sc.port (sc.text.getD []) ::
         .spawnWorker key :: r.1, r.2)

/-- The body of the closure passed to `std::thread::spawn`
(src/src/main.rs, lines 107-114): it receives the already-computed
registration result; on `Ok` it parks forever, on `Err` it logs.  It makes
no registration call of its own. -/
inductive WorkerAction where
  | parked
  | loggedRegistrationError
deriving DecidableEq

/-- Embeds the spawned worker closure: `match service { Ok(..) => park,
Err(e) => println }`. -/
def workerBody (registerResult : Except String Unit) : WorkerAction :=
  match registerResult with
  | .ok _ => .parked
  | .error _ => .loggedRegistrationError

/-- One result of `service_control_rx.recv_timeout(1s)`: `Ok(event)`,
`Err(Timeout)` or `Err(Disconnected)`. -/
inductive RecvResult where
  | ok (e : ServiceControl)
  | timeout
  | disconnected
deriving DecidableEq

/-- How the poll loop exits. -/
inductive LoopExit where
  | stopped
  | errStatus
  | exhausted
deriving DecidableEq

/-- Embeds the `loop` of `run_service` (src/src/main.rs, lines 116-137) run
over a finite prefix of channel results.  `Ok(Stop)` reports `StopPending`
(an error in that report is propagated by `?`) and breaks; any other
`Ok(event)` hits the `_ => ()` arm (nothing logged); `Err(e)` — both a
timeout and a disconnection — is printed and the loop continues.  If the
supplied results run out the loop is still running (`exhausted`). -/
def controlLoop (statusOk : ServiceState → Bool) :
    List RecvResult → List TraceEvent × LoopExit
  | [] => ([], .exhausted)
  | .ok .stop :: _ =>
    if statusOk .stopPending then ([.reportStatus .stopPending], .stopped)
    else ([], .errStatus)
  | .ok _ :: rest => controlLoop statusOk rest
  | .timeout :: rest =>
    let r := controlLoop statusOk rest
    (.logError recvErrorLog :: r.1, r.2)
  | .disconnected :: rest =>
    let r := controlLoop statusOk rest
    (.logError recvErrorLog :: r.1, r.2)

/-- The environment of one `run_service` call: the outcomes of every external
collaborator interaction.  `handlerOk`: result of
`service_control_handler::register`; `statusOk s`: whether
`set_service_status` with state `s` succeeds (each state is reported at most
once per run); `programData`: `env::var("ProgramData")`; `configLoad`:
result of `Settings::from_file`; `alloc`: outcomes of successive
`available_port` calls; `recv`: the channel results the poll loop sees. -/
structure Env where
  handlerOk : Bool
  statusOk : ServiceState → Bool
  programData : Option String
  configLoad : Except String Settings
  alloc : Nat → Option Nat
  recv : List RecvResult

/-- Embeds `run_service` (src/src/main.rs, lines 59-154), in source order:
register the control handler (`?`), report `Running` (`?`), read
`ProgramData` (`unwrap`), load the config (`unwrap`), run the per-service
spawn loop (`unwrap` on port allocation), enter the poll loop, and after a
`Stop` breaks the loop report `Stopped` (`?`) and return `Ok(())`. -/
def run_service (env : Env) : List TraceEvent × Outcome :=
  if env.handlerOk = false then ([], .err)
  else if env.statusOk .running = false then ([], .err)
  else
    match env.programData with
    | none => ([.reportStatus .running], .panicked)
    | some _ =>
      match env.configLoad with
      | .error _ => ([.reportStatus .running], .panicked)
      | .ok cfg =>
        let sp := spawnServices env.alloc 0 cfg.services
        if sp.2 then (.reportStatus .running :: sp.1, .panicked)
        else
          let lp := controlLoop env.statusOk env.recv
          match lp.2 with
          | .stopped =>
            if env.statusOk .stopped then
              (.reportStatus .running :: sp.1 ++ (.pollEnter :: lp.1) ++
                 [.reportStatus .stopped], .ok)
            else
              (.reportStatus .running :: sp.1 ++ (.pollEnter :: lp.1), .err)
          | .errStatus =>
            (.reportStatus .running :: sp.1 ++ (.pollEnter :: lp.1), .err)
          | .exhausted =>
            (.reportStatus .running :: sp.1 ++ (.pollEnter :: lp.1),
             .stillRunning)

/-- The lifecycle states reported to the host, in order, in a trace. -/
def statesReported (t : List TraceEvent) : List ServiceState :=
  t.filterMap fun e =>
    match e with
    | .reportStatus s => some s
    | _ => none

/-- The ports passed to the discovery-registration collaborator, in order. -/
def registerPorts (t : List TraceEvent) : List Nat :=
  t.filterMap fun e =>
    match e with
    | .controlRegisterCall _ _ port _ => some port
    | _ => none

/-- The keys whose worker threads were spawned, in order. -/
def spawnedKeys (t : List TraceEvent) : List String :=
  t.filterMap fun e =>
    match e with
    | .spawnWorker key => some key
    | _ => none

/-- Whether a trace event is a discovery-registration call. -/
def isRegisterCall : TraceEvent → Bool
  | .controlRegisterCall _ _ _ _ => true
  | _ => false

/-- The log entries the poll loop emits while consuming a list of channel
results none of which is `Ok(Stop)`: one error line per `Err` result,
nothing for an `Ok` event. -/
def skippedLogs (l : List RecvResult) : List TraceEvent :=
  l.filterMap fun r =>
    match r with
    | .ok _ => none
    | _ => some (.logError recvErrorLog)

/-- The number of entries whose configured port is the auto-assign
sentinel 0, i.e. the number of `available_port` calls a list of entries
makes when none of them panics early. -/
def countPortZero (l : List (String × ServiceConfig)) : Nat :=
  (l.filter fun e => e.2.port == 0).length

/-- A config entry with the auto-assign sentinel port 0. -/
def svcAuto : ServiceConfig :=
  { name := "alpha", service_type := "_http._tcp", port := 0, text := none }

/-- A config entry with a fixed nonzero port. -/
def svcFixed : ServiceConfig :=
  { name := "beta", service_type := "_ipp._tcp", port := 631, text := none }

/-- A status-report oracle in which every report succeeds. -/
def allStatusOk : ServiceState → Bool := fun _ => true

/-- A status-report oracle in which the `Running` report fails. -/
def statusFailRunning : ServiceState → Bool
  | .running => false
  | _ => true

/-- A status-report oracle in which the `StopPending` report fails. -/
def statusFailStopPending : ServiceState → Bool
  | .stopPending => false
  | _ => true

/-- A two-entry config table: one auto-assign entry, one fixed-port entry. -/
def tableAB : Settings :=
  { services := [("svcA", svcAuto), ("svcB", svcFixed)] }

/-- An environment whose config parse fails (e.g. a `port` field given as a
string); every other collaborator behaves. -/
def envBadConfig : Env :=
  { handlerOk := true
    statusOk := allStatusOk
    programData := some "C:/ProgramData"
    configLoad := .error "invalid type: string, expected u16 for port"
    alloc := fun _ => some 49200
    recv := [] }

/-- An environment with two services where every `available_port` call
fails; the first entry requests auto-assignment. -/
def envAllocFail : Env :=
  { handlerOk := true
    statusOk := allStatusOk
    programData := some "C:/ProgramData"
    configLoad := .ok tableAB
    alloc := fun _ => none
    recv := [] }

/-- A fully well-behaved environment over the two-entry table, with one
timeout before a `Stop` arrives. -/
def envHappy : Env :=
  { handlerOk := true
    statusOk := allStatusOk
    programData := some "C:/ProgramData"
    configLoad := .ok tableAB
    alloc := fun _ => some 49200
    recv := [.timeout, .ok .stop, .timeout] }

/-- A well-behaved environment with a single fixed-port service and no
channel activity. -/
def envOneService : Env :=
  { handlerOk := true
    statusOk := allStatusOk
    programData := some "C:/ProgramData"
    configLoad := .ok { services := [("svcB", svcFixed)] }
    alloc := fun _ => some 49200
    recv := [] }

/-- An environment in which the `Running` status report fails. -/
def envRunFail : Env :=
  { handlerOk := true
    statusOk := statusFailRunning
    programData := some "C:/ProgramData"
    configLoad := .ok tableAB
    alloc := fun _ => some 49200
    recv := [] }

/-- An environment in which the `StopPending` status report fails after a
`Stop` arrives. -/
def envStopPendFail : Env :=
  { handlerOk := true
    statusOk := statusFailStopPending
    programData := some "C:/ProgramData"
    configLoad := .ok { services := [("svcB", svcFixed)] }
    alloc := fun _ => some 49200
    recv := [.ok .stop] }

theorem available_port_eq (os : Option Nat) : available_port os = os := by
  cases os <;> rfl

@[simp]
theorem statesReported_nil : statesReported [] = [] := rfl

@[simp]
theorem statesReported_cons_report (s : ServiceState) (t : List TraceEvent) :
    statesReported (.reportStatus s :: t) = s :: statesReported t := rfl

@[simp]
theorem statesReported_cons_register (a b : String) (p : Nat)
    (x : List (String × String)) (t : List TraceEvent) :
    statesReported (.controlRegisterCall a b p x :: t) = statesReported t := rfl

@[simp]
theorem statesReported_cons_spawn (k : String) (t : List TraceEvent) :
    statesReported (.spawnWorker k :: t) = statesReported t := rfl

@[simp]
theorem statesReported_cons_log (m : String) (t : List TraceEvent) :
    statesReported (.logError m :: t) = statesReported t := rfl

@[simp]
theorem statesReported_cons_poll (t : List TraceEvent) :
    statesReported (.pollEnter :: t) = statesReported t := rfl

@[simp]
theorem statesReported_append (a b : List TraceEvent) :
    statesReported (a ++ b) = statesReported a ++ statesReported b := by
  simp [statesReported]

@[simp]
theorem registerPorts_nil : registerPorts [] = [] := rfl

@[simp]
theorem registerPorts_cons_report (s : ServiceState) (t : List TraceEvent) :
    registerPorts (.reportStatus s :: t) = registerPorts t := rfl

@[simp]
theorem registerPorts_cons_register (a b : String) (p : Nat)
    (x : List (String × String)) (t : List TraceEvent) :
    registerPorts (.controlRegisterCall a b p x :: t) = p :: registerPorts t := rfl

@[simp]
theorem registerPorts_cons_spawn (k : String) (t : List TraceEvent) :
    registerPorts (.spawnWorker k :: t) = registerPorts t := rfl

@[simp]
theorem registerPorts_cons_log (m : String) (t : List TraceEvent) :
    registerPorts (.logError m :: t) = registerPorts t := rfl

@[simp]
theorem registerPorts_cons_poll (t : List TraceEvent) :
    registerPorts (.pollEnter :: t) = registerPorts t := rfl

@[simp]
theorem registerPorts_append (a b : List TraceEvent) :
    registerPorts (a ++ b) = registerPorts a ++ registerPorts b := by
  simp [registerPorts]

@[simp]
theorem spawnedKeys_nil : spawnedKeys [] = [] := rfl

@[simp]
theorem spawnedKeys_cons_report (s : ServiceState) (t : List TraceEvent) :
    spawnedKeys (.reportStatus s :: t) = spawnedKeys t := rfl

@[simp]
theorem spawnedKeys_cons_register (a b : String) (p : Nat)
    (x : List (String × String)) (t : List TraceEvent) :
    spawnedKeys (.controlRegisterCall a b p x :: t) = spawnedKeys t := rfl

@[simp]
theorem spawnedKeys_cons_spawn (k : String) (t : List TraceEvent) :
    spawnedKeys (.spawnWorker k :: t) = k :: spawnedKeys t := rfl

@[simp]
theorem spawnedKeys_cons_log (m : String) (t : List TraceEvent) :
    spawnedKeys (.logError m :: t) = spawnedKeys t := rfl

@[simp]
theorem spawnedKeys_cons_poll (t : List TraceEvent) :
    spawnedKeys (.pollEnter :: t) = spawnedKeys t := rfl

@[simp]
theorem spawnedKeys_append (a b : List TraceEvent) :
    spawnedKeys (a ++ b) = spawnedKeys a ++ spawnedKeys b := by
  simp [spawnedKeys]

@[simp]
theorem controlLoop_nil (s : ServiceState → Bool) :
    controlLoop s [] = ([], .exhausted) := rfl

@[simp]
theorem controlLoop_stop (s : ServiceState → Bool) (t : List RecvResult) :
    controlLoop s (.ok .stop :: t) =
      if s .stopPending then ([.reportStatus .stopPending], .stopped)
      else ([], .errStatus) := rfl

@[simp]
theorem controlLoop_interrogate (s : ServiceState → Bool) (t : List RecvResult) :
    controlLoop s (.ok .interrogate :: t) = controlLoop s t := rfl

@[simp]
theorem controlLoop_continueEvt (s : ServiceState → Bool) (t : List RecvResult) :
    controlLoop s (.ok .continueEvt :: t) = controlLoop s t := rfl

@[simp]
theorem controlLoop_pause (s : ServiceState → Bool) (t : List RecvResult) :
    controlLoop s (.ok .pause :: t) = controlLoop s t := rfl

@[simp]
theorem controlLoop_shutdown (s : ServiceState → Bool) (t : List RecvResult) :
    controlLoop s (.ok .shutdown :: t) = controlLoop s t := rfl

@[simp]
theorem controlLoop_other (s : ServiceState → Bool) (c : Nat)
    (t : List RecvResult) :
    controlLoop s (.ok (.other c) :: t) = controlLoop s t := rfl

@[simp]
theorem controlLoop_timeout (s : ServiceState → Bool) (t : List RecvResult) :
    controlLoop s (.timeout :: t) =
      (.logError recvErrorLog :: (controlLoop s t).1, (controlLoop s t).2) := rfl

@[simp]
theorem controlLoop_disconnected (s : ServiceState → Bool)
    (t : List RecvResult) :
    controlLoop s (.disconnected :: t) =
      (.logError recvErrorLog :: (controlLoop s t).1, (controlLoop s t).2) := rfl

@[simp]
theorem skippedLogs_nil : skippedLogs [] = [] := rfl

@[simp]
theorem skippedLogs_cons_ok (e : ServiceControl) (t : List RecvResult) :
    skippedLogs (.ok e :: t) = skippedLogs t := rfl

@[simp]
theorem skippedLogs_cons_timeout (t : List RecvResult) :
    skippedLogs (.timeout :: t) = .logError recvErrorLog :: skippedLogs t := rfl

@[simp]
theorem skippedLogs_cons_disconnected (t : List RecvResult) :
    skippedLogs (.disconnected :: t) =
      .logError recvErrorLog :: skippedLogs t := rfl

theorem controlLoop_append (s : ServiceState → Bool) (pre l : List RecvResult)
    (h : ∀ r ∈ pre, r ≠ RecvResult.ok .stop) :
    controlLoop s (pre ++ l) =
      (skippedLogs pre ++ (controlLoop s l).1, (controlLoop s l).2) := by
  induction pre with
  | nil => simp
  | cons r rest ih =>
    have hr : r ≠ RecvResult.ok .stop := h r (List.mem_cons_self r rest)
    have ih2 := ih fun x hx => h x (List.mem_cons_of_mem r hx)
    cases r with
    | ok e =>
      cases e with
      | stop => exact absurd rfl hr
      | interrogate => simpa using ih2
      | continueEvt => simpa using ih2
      | pause => simpa using ih2
      | shutdown => simpa using ih2
      | other c => simpa using ih2
    | timeout => simp [ih2]
    | disconnected => simp [ih2]

theorem statesReported_skippedLogs (l : List RecvResult) :
    statesReported (skippedLogs l) = [] := by
  induction l with
  | nil => simp
  | cons r rest ih => cases r <;> simp [ih]

theorem spawnedKeys_skippedLogs (l : List RecvResult) :
    spawnedKeys (skippedLogs l) = [] := by
  induction l with
  | nil => simp
  | cons r rest ih => cases r <;> simp [ih]

theorem registerPorts_skippedLogs (l : List RecvResult) :
    registerPorts (skippedLogs l) = [] := by
  induction l with
  | nil => simp
  | cons r rest ih => cases r <;> simp [ih]

@[simp]
theorem spawnServices_nil (alloc : Nat → Option Nat) (j : Nat) :
    spawnServices alloc j [] = ([], false) := rfl

theorem spawnServices_cons_zero (alloc : Nat → Option Nat) (j : Nat)
    (key : String) (sc : ServiceConfig) (rest : List (String × ServiceConfig))
    (h0 : sc.port = 0) (p : Nat) (ha : alloc j = some p) :
    spawnServices alloc j ((key, sc) :: rest) =
      (.controlRegisterCall sc.service_type sc.name p (sc.text.getD []) ::
         .spawnWorker key :: (spawnServices alloc (j + 1) rest).1,
       (spawnServices alloc (j + 1) rest).2) := by
  simp [spawnServices, h0, available_port, ha]

theorem spawnServices_cons_zero_fail (alloc : Nat → Option Nat) (j : Nat)
    (key : String) (sc : ServiceConfig) (rest : List (String × ServiceConfig))
    (h0 : sc.port = 0) (ha : alloc j = none) :
    spawnServices alloc j ((key, sc) :: rest) = ([], true) := by
  simp [spawnServices, h0, available_port, ha]

theorem spawnServices_cons_nonzero (alloc : Nat → Option Nat) (j : Nat)
    (key : String) (sc : ServiceConfig) (rest : List (String × ServiceConfig))
    (h0 : ¬ sc.port = 0) :
    spawnServices alloc j ((key, sc) :: rest) =
      (.controlRegisterCall sc.service_type sc.name sc.port (sc.text.getD []) ::
         .spawnWorker key :: (spawnServices alloc j rest).1,
       (spawnServices alloc j rest).2) := by
  simp [spawnServices, h0]

theorem statesReported_spawnServices (alloc : Nat → Option Nat) (j : Nat)
    (svcs : List (String × ServiceConfig)) :
    statesReported (spawnServices alloc j svcs).1 = [] := by
  induction svcs generalizing j with
  | nil => simp
  | cons hd tl ih =>
    obtain ⟨key, sc⟩ := hd
    by_cases h0 : sc.port = 0
    · cases ha : alloc j with
      | none => simp [spawnServices_cons_zero_fail alloc j key sc tl h0 ha]
      | some p => simp [spawnServices_cons_zero alloc j key sc tl h0 p ha, ih]
    · simp [spawnServices_cons_nonzero alloc j key sc tl h0, ih]

theorem spawnedKeys_spawnServices (alloc : Nat → Option Nat)
    (hall : ∀ j, (alloc j).isSome) (j : Nat)
    (svcs : List (String × ServiceConfig)) :
    spawnedKeys (spawnServices alloc j svcs).1 = svcs.map Prod.fst ∧
      (spawnServices alloc j svcs).2 = false := by
  induction svcs generalizing j with
  | nil => simp
  | cons hd tl ih =>
    obtain ⟨key, sc⟩ := hd
    by_cases h0 : sc.port = 0
    · obtain ⟨p, hp⟩ := Option.isSome_iff_exists.mp (hall j)
      simpa [spawnServices_cons_zero alloc j key sc tl h0 p hp]
        using ih (j + 1)
    · simpa [spawnServices_cons_nonzero alloc j key sc tl h0] using ih j

theorem no_register_in_controlLoop (s : ServiceState → Bool)
    (l : List RecvResult) :
    registerPorts (controlLoop s l).1 = [] := by
  induction l with
  | nil => simp
  | cons r rest ih =>
    cases r with
    | ok e =>
      cases e with
      | stop =>
        by_cases hs : s ServiceState.stopPending = true
        · simp [hs]
        · simp [hs]
      | interrogate => simpa using ih
      | continueEvt => simpa using ih
      | pause => simpa using ih
      | shutdown => simpa using ih
      | other c => simpa using ih
    | timeout => simp [ih]
    | disconnected => simp [ih]

theorem registerPorts_length_spawnServices (alloc : Nat → Option Nat) (j : Nat)
    (svcs : List (String × ServiceConfig))
    (hok : (spawnServices alloc j svcs).2 = false) :
    (registerPorts (spawnServices alloc j svcs).1).length = svcs.length := by
  induction svcs generalizing j with
  | nil => simp
  | cons hd tl ih =>
    obtain ⟨key, sc⟩ := hd
    by_cases h0 : sc.port = 0
    · cases ha : alloc j with
      | none =>
        rw [spawnServices_cons_zero_fail alloc j key sc tl h0 ha] at hok
        exact absurd hok (by simp)
      | some p =>
        rw [spawnServices_cons_zero alloc j key sc tl h0 p ha] at hok ⊢
        simpa using ih (j + 1) hok
    · rw [spawnServices_cons_nonzero alloc j key sc tl h0] at hok ⊢
      simpa using ih j hok

theorem no_spawn_in_controlLoop (s : ServiceState → Bool)
    (l : List RecvResult) :
    spawnedKeys (controlLoop s l).1 = [] := by
  induction l with
  | nil => simp
  | cons r rest ih =>
    cases r with
    | ok e =>
      cases e with
      | stop =>
        by_cases hs : s ServiceState.stopPending = true
        · simp [hs]
        · simp [hs]
      | interrogate => simpa using ih
      | continueEvt => simpa using ih
      | pause => simpa using ih
      | shutdown => simpa using ih
      | other c => simpa using ih
    | timeout => simp [ih]
    | disconnected => simp [ih]

theorem run_service_stopped (env : Env) (cfg : Settings) (lt : List TraceEvent)
    (h1 : env.handlerOk = true) (h2 : env.statusOk .running = true)
    (d : String) (hd : env.programData = some d)
    (hc : env.configLoad = .ok cfg)
    (hsp : (spawnServices env.alloc 0 cfg.services).2 = false)
    (hlp : controlLoop env.statusOk env.recv = (lt, .stopped))
    (hst : env.statusOk .stopped = true) :
    run_service env =
      (.reportStatus .running :: (spawnServices env.alloc 0 cfg.services).1 ++
         (.pollEnter :: lt) ++ [.reportStatus .stopped], .ok) := by
  simp [run_service, h1, h2, hd, hc, hsp, hlp, hst]

theorem run_service_stopped_statusfail (env : Env) (cfg : Settings)
    (lt : List TraceEvent)
    (h1 : env.handlerOk = true) (h2 : env.statusOk .running = true)
    (d : String) (hd : env.programData = some d)
    (hc : env.configLoad = .ok cfg)
    (hsp : (spawnServices env.alloc 0 cfg.services).2 = false)
    (hlp : controlLoop env.statusOk env.recv = (lt, .stopped))
    (hst : env.statusOk .stopped = false) :
    run_service env =
      (.reportStatus .running :: (spawnServices env.alloc 0 cfg.services).1 ++
         (.pollEnter :: lt), .err) := by
  simp [run_service, h1, h2, hd, hc, hsp, hlp, hst]

theorem run_service_errStatus (env : Env) (cfg : Settings)
    (lt : List TraceEvent)
    (h1 : env.handlerOk = true) (h2 : env.statusOk .running = true)
    (d : String) (hd : env.programData = some d)
    (hc : env.configLoad = .ok cfg)
    (hsp : (spawnServices env.alloc 0 cfg.services).2 = false)
    (hlp : controlLoop env.statusOk env.recv = (lt, .errStatus)) :
    run_service env =
      (.reportStatus .running :: (spawnServices env.alloc 0 cfg.services).1 ++
         (.pollEnter :: lt), .err) := by
  simp [run_service, h1, h2, hd, hc, hsp, hlp]

theorem run_service_exhausted (env : Env) (cfg : Settings)
    (lt : List TraceEvent)
    (h1 : env.handlerOk = true) (h2 : env.statusOk .running = true)
    (d : String) (hd : env.programData = some d)
    (hc : env.configLoad = .ok cfg)
    (hsp : (spawnServices env.alloc 0 cfg.services).2 = false)
    (hlp : controlLoop env.statusOk env.recv = (lt, .exhausted)) :
    run_service env =
      (.reportStatus .running :: (spawnServices env.alloc 0 cfg.services).1 ++
         (.pollEnter :: lt), .stillRunning) := by
  simp [run_service, h1, h2, hd, hc, hsp, hlp]

theorem reportStatus_mem_iff (s : ServiceState) (t : List TraceEvent) :
    TraceEvent.reportStatus s ∈ t ↔ s ∈ statesReported t := by
  induction t with
  | nil => simp [statesReported]
  | cons e rest ih => cases e <;> simp [ih]

/-- C1 (counterexample): with a malformed config file and all other
collaborators behaving, `run_service` panics, but `Running` has already
been reported to the host before the abort: the code reports `Running`
before it ever reads the config, contradicting the claim that startup
aborts before `Running` is ever reported. -/
theorem C1_counterexample_running_already_reported :
    (run_service envBadConfig).2 = .panicked ∧
      TraceEvent.reportStatus .running ∈ (run_service envBadConfig).1 := by
  decide

/-- C1 (amended): a malformed config file causes `run_service` to panic
before any worker is spawned and before any registration call, but after
`Running` has already been reported to the host: the whole control-thread
trace is the single `Running` report. -/
theorem C1_bad_config_aborts_before_spawn (env : Env)
    (h1 : env.handlerOk = true) (h2 : env.statusOk .running = true)
    (d : String) (hd : env.programData = some d)
    (e : String) (he : env.configLoad = .error e) :
    run_service env = ([.reportStatus .running], .panicked) := by
  simp [run_service, h1, h2, hd, he]

theorem C1_witness :
    run_service envBadConfig = ([.reportStatus .running], .panicked) :=
  C1_bad_config_aborts_before_spawn envBadConfig rfl rfl "C:/ProgramData" rfl
    "invalid type: string, expected u16 for port" rfl

/-- C2 (counterexample): with a two-entry table whose first iterated entry
requests auto-assignment, a failure of `available_port` panics the whole
of `run_service` and the sibling entry svcB never gets a worker,
contradicting the claim that the failure is isolated to the one service. -/
theorem C2_counterexample_sibling_not_spawned :
    (run_service envAllocFail).2 = .panicked ∧
      TraceEvent.spawnWorker "svcB" ∉ (run_service envAllocFail).1 := by
  decide

/-- C2 (amended): a failure of `available_port` for a port-0 entry makes
the spawn loop panic at that entry: entries iterated before it keep their
workers, but the failing entry and every entry after it get none. -/
theorem C2_alloc_failure_panics_spawn_loop (alloc : Nat → Option Nat)
    (j : Nat) (pre post : List (String × ServiceConfig)) (key : String)
    (sc : ServiceConfig)
    (hpre : (spawnServices alloc j pre).2 = false)
    (hsc : sc.port = 0)
    (hfail : alloc (j + countPortZero pre) = none) :
    spawnServices alloc j (pre ++ (key, sc) :: post) =
      ((spawnServices alloc j pre).1, true) := by
  induction pre generalizing j with
  | nil =>
    simp only [countPortZero, List.filter_nil, List.length_nil,
      Nat.add_zero] at hfail
    simp [spawnServices_cons_zero_fail alloc j key sc post hsc hfail]
  | cons hd tl ih =>
    obtain ⟨k0, c0⟩ := hd
    by_cases h0 : c0.port = 0
    · cases ha : alloc j with
      | none =>
        rw [spawnServices_cons_zero_fail alloc j k0 c0 tl h0 ha] at hpre
        exact absurd hpre (by simp)
      | some p =>
        rw [spawnServices_cons_zero alloc j k0 c0 tl h0 p ha] at hpre
        have hcount : j + countPortZero ((k0, c0) :: tl) =
            (j + 1) + countPortZero tl := by
          simp only [countPortZero, List.filter_cons]
          have : (c0.port == 0) = true := by simp [h0]
          simp [this]
          omega
        rw [hcount] at hfail
        rw [List.cons_append,
          spawnServices_cons_zero alloc j k0 c0 (tl ++ (key, sc) :: post)
            h0 p ha,
          ih (j + 1) hpre hfail,
          spawnServices_cons_zero alloc j k0 c0 tl h0 p ha]
    · rw [spawnServices_cons_nonzero alloc j k0 c0 tl h0] at hpre
      have hcount : j + countPortZero ((k0, c0) :: tl) =
          j + countPortZero tl := by
        simp only [countPortZero, List.filter_cons]
        have : (c0.port == 0) = false := by simp [h0]
        simp [this]
      rw [hcount] at hfail
      rw [List.cons_append,
        spawnServices_cons_nonzero alloc j k0 c0 (tl ++ (key, sc) :: post) h0,
        ih j hpre hfail,
        spawnServices_cons_nonzero alloc j k0 c0 tl h0]

theorem C2_witness :
    spawnServices (fun _ => none) 0
        ([("svcB", svcFixed)] ++ ("svcA", svcAuto) :: []) =
      ((spawnServices (fun _ => none) 0 [("svcB", svcFixed)]).1, true) :=
  C2_alloc_failure_panics_spawn_loop (fun _ => none) 0 [("svcB", svcFixed)]
    [] "svcA" svcAuto rfl rfl rfl

/-- C4: the discovery-registration call is NOT executed inside the worker
thread: for a one-service config the register call appears in the
Supervisor control-thread trace, before the worker spawn, and the spawned
worker body merely consumes the already-computed result (parking on `Ok`).
This exhibits the divergence between the code and the claim. -/
theorem C4_register_call_on_control_thread :
    (run_service envOneService).1 =
      [.reportStatus .running,
       .controlRegisterCall "_ipp._tcp" "beta" 631 [],
       .spawnWorker "svcB", .pollEnter] ∧
      workerBody (.ok ()) = .parked := by
  decide

/-- C5: for every control notification delivered to the registered
callback, `Interrogate` is acknowledged `NoError` with nothing enqueued,
`Stop` is acknowledged `NoError` and the event is forwarded into the
channel, and any other notification is acknowledged `NotImplemented` and
dropped without enqueuing. -/
theorem C5_event_handler_classification :
    event_handler .interrogate = (.noError, []) ∧
      event_handler .stop = (.noError, [.stop]) ∧
      ∀ e : ServiceControl, e ≠ .interrogate → e ≠ .stop →
        event_handler e = (.notImplemented, []) := by
  refine ⟨rfl, rfl, ?_⟩
  intro e h1 h2
  cases e with
  | interrogate => exact absurd rfl h1
  | stop => exact absurd rfl h2
  | continueEvt => rfl
  | pause => rfl
  | shutdown => rfl
  | other c => rfl

theorem C5_witness : event_handler (.other 5) = (.notImplemented, []) :=
  C5_event_handler_classification.2.2 (.other 5) (by decide) (by decide)

/-- C7 (counterexample): a receive timeout IS logged through the `Err(e)`
print arm (so it is treated as an error, contrary to the claim), while a
non-Stop event is silently dropped without any log entry (contrary to the
claim that it is logged). -/
theorem C7_counterexample_timeout_logged :
    (controlLoop allStatusOk [.timeout]).1 = [.logError recvErrorLog] ∧
      (controlLoop allStatusOk [RecvResult.ok .pause]).1 = [] := by
  decide

/-- C7 (amended): a receive timeout is logged as an error but still simply
causes a re-poll, a channel disconnection error is likewise logged, and
any non-Stop event is silently dropped; in every case the loop continues
in `Running` with no state transition. -/
theorem C7_loop_continues (s : ServiceState → Bool) (rest : List RecvResult) :
    controlLoop s (.timeout :: rest) =
        (.logError recvErrorLog :: (controlLoop s rest).1,
         (controlLoop s rest).2) ∧
      controlLoop s (.disconnected :: rest) =
        (.logError recvErrorLog :: (controlLoop s rest).1,
         (controlLoop s rest).2) ∧
      ∀ e : ServiceControl, e ≠ .stop →
        controlLoop s (RecvResult.ok e :: rest) = controlLoop s rest := by
  refine ⟨rfl, rfl, ?_⟩
  intro e he
  cases e with
  | stop => exact absurd rfl he
  | interrogate => rfl
  | continueEvt => rfl
  | pause => rfl
  | shutdown => rfl
  | other c => rfl

theorem C7_witness :
    controlLoop allStatusOk [RecvResult.ok .interrogate] =
      controlLoop allStatusOk [] :=
  (C7_loop_continues allStatusOk []).2.2 .interrogate (by decide)

/-- C3: whenever a `Stop` event is received from the channel while the
supervisor is in `Running` (all prior channel results being non-Stop), the
states reported to the host are exactly `Running`, then `StopPending`,
then `Stopped`, with no other state between them, the run ends with
`Ok(())`, and the loop terminates on the `Stop`: channel results after the
`Stop` are never consumed. -/
theorem C3_stop_reports_stoppending_then_stopped (env : Env) (cfg : Settings)
    (h1 : env.handlerOk = true) (h2 : env.statusOk .running = true)
    (h3 : env.statusOk .stopPending = true)
    (h4 : env.statusOk .stopped = true)
    (d : String) (hd : env.programData = some d)
    (hc : env.configLoad = .ok cfg)
    (hsp : (spawnServices env.alloc 0 cfg.services).2 = false)
    (pre rest : List RecvResult)
    (hrecv : env.recv = pre ++ RecvResult.ok .stop :: rest)
    (hpre : ∀ r ∈ pre, r ≠ RecvResult.ok .stop) :
    statesReported (run_service env).1 =
        [.running, .stopPending, .stopped] ∧
      (run_service env).2 = .ok ∧
      run_service env =
        run_service { env with recv := pre ++ [RecvResult.ok .stop] } := by
  have hloop : controlLoop env.statusOk env.recv =
      (skippedLogs pre ++ [.reportStatus .stopPending], .stopped) := by
    rw [hrecv, controlLoop_append env.statusOk pre _ hpre]
    simp [h3]
  have hrs := run_service_stopped env cfg
    (skippedLogs pre ++ [.reportStatus .stopPending]) h1 h2 d hd hc hsp
    hloop h4
  have hloop2 : controlLoop env.statusOk (pre ++ [RecvResult.ok .stop]) =
      (skippedLogs pre ++ [.reportStatus .stopPending], .stopped) := by
    rw [controlLoop_append env.statusOk pre _ hpre]
    simp [h3]
  have hrs2 := run_service_stopped
    { env with recv := pre ++ [RecvResult.ok .stop] } cfg
    (skippedLogs pre ++ [.reportStatus .stopPending]) h1 h2 d hd hc hsp
    hloop2 h4
  refine ⟨?_, ?_, ?_⟩
  · rw [hrs]
    simp [statesReported_spawnServices, statesReported_skippedLogs]
  · rw [hrs]
  · rw [hrs, hrs2]

theorem C3_witness :
    statesReported (run_service envHappy).1 =
        [.running, .stopPending, .stopped] ∧
      (run_service envHappy).2 = .ok ∧
      run_service envHappy =
        run_service { envHappy with recv := [.timeout] ++ [RecvResult.ok .stop] } :=
  C3_stop_reports_stoppending_then_stopped envHappy tableAB rfl rfl rfl rfl
    "C:/ProgramData" rfl rfl (by decide) [.timeout] [.timeout] rfl (by decide)

/-- C6: in the spawn loop, every port passed to the discovery-registration
collaborator is, entry by entry, the configured port unchanged when it is
nonzero, and the `available_port` result when the configured port is 0 —
a value in 1..65535 whenever the OS-assigned ephemeral port lies in that
range (it is a nonzero u16 by the OS contract). -/
theorem C6_ports_resolved (alloc : Nat → Option Nat)
    (hrange : ∀ j p, alloc j = some p → 1 ≤ p ∧ p ≤ 65535)
    (j : Nat) (svcs : List (String × ServiceConfig))
    (hok : (spawnServices alloc j svcs).2 = false) :
    List.Forall₂
      (fun (e : String × ServiceConfig) (p : Nat) =>
        (e.2.port ≠ 0 → p = e.2.port) ∧
          (e.2.port = 0 → 1 ≤ p ∧ p ≤ 65535))
      svcs (registerPorts (spawnServices alloc j svcs).1) := by
  induction svcs generalizing j with
  | nil => simp
  | cons hd tl ih =>
    obtain ⟨key, sc⟩ := hd
    by_cases h0 : sc.port = 0
    · cases ha : alloc j with
      | none =>
        rw [spawnServices_cons_zero_fail alloc j key sc tl h0 ha] at hok
        exact absurd hok (by simp)
      | some p =>
        rw [spawnServices_cons_zero alloc j key sc tl h0 p ha] at hok ⊢
        simp only [registerPorts_cons_register, registerPorts_cons_spawn]
        exact List.Forall₂.cons
          ⟨fun hc => absurd h0 hc, fun _ => hrange j p ha⟩ (ih (j + 1) hok)
    · rw [spawnServices_cons_nonzero alloc j key sc tl h0] at hok ⊢
      simp only [registerPorts_cons_register, registerPorts_cons_spawn]
      exact List.Forall₂.cons ⟨fun _ => rfl, fun hc => absurd hc h0⟩
        (ih j hok)

theorem C6_witness :
    List.Forall₂
      (fun (e : String × ServiceConfig) (p : Nat) =>
        (e.2.port ≠ 0 → p = e.2.port) ∧
          (e.2.port = 0 → 1 ≤ p ∧ p ≤ 65535))
      tableAB.services
      (registerPorts
        (spawnServices (fun _ => some 49200) 0 tableAB.services).1) :=
  C6_ports_resolved (fun _ => some 49200)
    (fun j p hp => by
      simp only [Option.some.injEq] at hp
      omega)
    0 tableAB.services (by decide)

/-- C8: for every valid service table, when every `available_port` call
succeeds, the supervisor issues exactly one worker-thread spawn per table
entry, in iteration order and regardless of each entry's port value: the
spawned keys are exactly the table's keys. -/
theorem C8_one_spawn_attempt_per_entry (env : Env) (cfg : Settings)
    (h1 : env.handlerOk = true) (h2 : env.statusOk .running = true)
    (d : String) (hd : env.programData = some d)
    (hc : env.configLoad = .ok cfg)
    (hall : ∀ j, (env.alloc j).isSome) :
    spawnedKeys (run_service env).1 = cfg.services.map Prod.fst ∧
      (spawnedKeys (run_service env).1).length = cfg.services.length := by
  obtain ⟨hk, hnp⟩ := spawnedKeys_spawnServices env.alloc hall 0 cfg.services
  have hkeys : spawnedKeys (run_service env).1 = cfg.services.map Prod.fst := by
    rcases hloop : controlLoop env.statusOk env.recv with ⟨lt, lx⟩
    have hl : spawnedKeys lt = [] := by
      have h := no_spawn_in_controlLoop env.statusOk env.recv
      rw [hloop] at h
      exact h
    cases lx with
    | stopped =>
      by_cases hst : env.statusOk .stopped = true
      · rw [run_service_stopped env cfg lt h1 h2 d hd hc hnp hloop hst]
        simp [hk, hl]
      · rw [run_service_stopped_statusfail env cfg lt h1 h2 d hd hc hnp hloop
          (Bool.not_eq_true _ ▸ hst)]
        simp [hk, hl]
    | errStatus =>
      rw [run_service_errStatus env cfg lt h1 h2 d hd hc hnp hloop]
      simp [hk, hl]
    | exhausted =>
      rw [run_service_exhausted env cfg lt h1 h2 d hd hc hnp hloop]
      simp [hk, hl]
  exact ⟨hkeys, by rw [hkeys]; simp⟩

theorem C8_witness :
    spawnedKeys (run_service envHappy).1 = tableAB.services.map Prod.fst ∧
      (spawnedKeys (run_service envHappy).1).length =
        tableAB.services.length :=
  C8_one_spawn_attempt_per_entry envHappy tableAB rfl rfl "C:/ProgramData"
    rfl rfl (fun _ => rfl)

/-- C9: every error from a host status report is fatal: if the `Running`
report fails the supervisor stops immediately (no spawn, no loop, error
return), and if the `StopPending` report fails after a `Stop` arrives the
run ends with an error and neither `StopPending` nor `Stopped` is ever
reported. -/
theorem C9_status_report_failure_fatal (env : Env)
    (h1 : env.handlerOk = true) :
    (env.statusOk .running = false → run_service env = ([], .err)) ∧
      (∀ cfg : Settings, ∀ d : String, ∀ pre rest : List RecvResult,
        env.statusOk .running = true → env.programData = some d →
        env.configLoad = .ok cfg →
        (spawnServices env.alloc 0 cfg.services).2 = false →
        env.recv = pre ++ RecvResult.ok .stop :: rest →
        (∀ r ∈ pre, r ≠ RecvResult.ok .stop) →
        env.statusOk .stopPending = false →
        (run_service env).2 = .err ∧
          TraceEvent.reportStatus .stopPending ∉ (run_service env).1 ∧
          TraceEvent.reportStatus .stopped ∉ (run_service env).1) := by
  constructor
  · intro h2
    simp [run_service, h1, h2]
  · intro cfg d pre rest h2 hd hc hsp hrecv hpre h3
    have hloop : controlLoop env.statusOk env.recv =
        (skippedLogs pre, .errStatus) := by
      rw [hrecv, controlLoop_append env.statusOk pre _ hpre]
      simp [h3]
    have hrs := run_service_errStatus env cfg (skippedLogs pre) h1 h2 d hd
      hc hsp hloop
    have hstates : statesReported (run_service env).1 = [.running] := by
      rw [hrs]
      simp [statesReported_spawnServices, statesReported_skippedLogs]
    refine ⟨by rw [hrs], ?_, ?_⟩
    · rw [reportStatus_mem_iff, hstates]
      simp
    · rw [reportStatus_mem_iff, hstates]
      simp

theorem C9_witness :
    run_service envRunFail = ([], .err) ∧
      (run_service envStopPendFail).2 = .err :=
  ⟨(C9_status_report_failure_fatal envRunFail rfl).1 rfl,
   ((C9_status_report_failure_fatal envStopPendFail rfl).2
      { services := [("svcB", svcFixed)] } "C:/ProgramData" [] [] rfl rfl
      rfl (by decide) rfl (by simp) rfl).1⟩

/-- C10: the supervisor performs every discovery-registration call
sequentially on its own control-thread trace before entering the polling
loop: the trace splits at the `pollEnter` marker, with one register call
per configured service before it and none after it. -/
theorem C10_registration_before_poll (env : Env) (cfg : Settings)
    (h1 : env.handlerOk = true) (h2 : env.statusOk .running = true)
    (d : String) (hd : env.programData = some d)
    (hc : env.configLoad = .ok cfg)
    (hsp : (spawnServices env.alloc 0 cfg.services).2 = false) :
    ∃ pre post : List TraceEvent,
      (run_service env).1 = pre ++ TraceEvent.pollEnter :: post ∧
        (registerPorts pre).length = cfg.services.length ∧
        registerPorts post = [] := by
  have hrl := registerPorts_length_spawnServices env.alloc 0 cfg.services hsp
  rcases hloop : controlLoop env.statusOk env.recv with ⟨lt, lx⟩
  have hl : registerPorts lt = [] := by
    have h := no_register_in_controlLoop env.statusOk env.recv
    rw [hloop] at h
    exact h
  cases lx with
  | stopped =>
    by_cases hst : env.statusOk .stopped = true
    · refine ⟨.reportStatus .running ::
        (spawnServices env.alloc 0 cfg.services).1,
        lt ++ [.reportStatus .stopped], ?_, by simpa using hrl,
        by simp [hl]⟩
      rw [run_service_stopped env cfg lt h1 h2 d hd hc hsp hloop hst]
      simp
    · refine ⟨.reportStatus .running ::
        (spawnServices env.alloc 0 cfg.services).1, lt, ?_,
        by simpa using hrl, hl⟩
      rw [run_service_stopped_statusfail env cfg lt h1 h2 d hd hc hsp hloop
        (Bool.not_eq_true _ ▸ hst)]
  | errStatus =>
    refine ⟨.reportStatus .running ::
      (spawnServices env.alloc 0 cfg.services).1, lt, ?_,
      by simpa using hrl, hl⟩
    rw [run_service_errStatus env cfg lt h1 h2 d hd hc hsp hloop]
  | exhausted =>
    refine ⟨.reportStatus .running ::
      (spawnServices env.alloc 0 cfg.services).1, lt, ?_,
      by simpa using hrl, hl⟩
    rw [run_service_exhausted env cfg lt h1 h2 d hd hc hsp hloop]

theorem C10_witness :
    ∃ pre post : List TraceEvent,
      (run_service envHappy).1 = pre ++ TraceEvent.pollEnter :: post ∧
        (registerPorts pre).length = tableAB.services.length ∧
        registerPorts post = [] :=
  C10_registration_before_poll envHappy tableAB rfl rfl "C:/ProgramData"
    rfl rfl (by decide)

end WinDnsSd
